import Mathlib

/-!
Shallow embedding of `src/frontend/app.js` (browser chat widget).

The JavaScript file defines a module-level function `getBackendUrl`, a
module-level constant `BACKEND_URL`, and a class `AgentChat` whose methods
drive the UI.  We embed the code as pure Lean functions over an explicit
session state:

* DOM state touched by the code (the message list, the text input, the
  status indicator, the rendered file list) becomes fields of
  `SessionState`; `window.BACKEND_URL` (the discovered-endpoint override
  set by `tryAlternativePorts`) becomes the field `backendOverride`.
* Each network interaction (`fetch`) is modelled by an outcome value the
  environment supplies to the method, and each method additionally returns
  the list of request URLs it issued, so that ordering and counting of
  network calls is visible in the model.
* JavaScript numbers appearing here are integers or `NaN`
  (`parseInt(window.location.port)` on a portless page); we model them as
  `Option Int` with `none` for `NaN`, which propagates through `+`/`-`
  and prints as "NaN" in template literals.
* `setLoading` toggles a transient disabled flag that is set and cleared
  within the same action (`finally`), and `setTimeout(() => loadFiles(), 2000)`
  schedules a later `/files` refresh; the console.log calls print to the
  debugging console.  None of these affect the message list, the endpoint
  state, or the requests of the current action, and they are elided.
-/

/-- A chat message as appended by `AgentChat.addMessage`: the text content
and the CSS class string passed as `type` ("user", "assistant",
"assistant error"). -/
structure Message where
  content : String
  msgType : String
deriving DecidableEq, Repr

/-- A file descriptor as returned by the backend `/files` route; the code
only reads `file.filename`. -/
structure FileDesc where
  filename : String
deriving DecidableEq, Repr

/-- The mutable state the script touches: `window.BACKEND_URL` (unset until
`tryAlternativePorts` succeeds), the rendered message list, the text input's
value, the status indicator's text and className, and the innerHTML of the
files list. -/
structure SessionState where
  backendOverride : Option String
  messages : List Message
  inputValue : String
  statusText : String
  statusClassName : String
  filesHtml : String
deriving DecidableEq, Repr

/-- The state of a freshly loaded page, before any handler has run. -/
def initState : SessionState :=
  { backendOverride := none
    messages := []
    inputValue := ""
    statusText := ""
    statusClassName := ""
    filesHtml := "" }

/-- JavaScript `a || b` for an possibly-undefined string `a` (`none` models
`undefined`; the empty string is falsy). -/
def jsOr (a : Option String) (b : String) : String :=
  match a with
  | none => b
  | some s => if s = "" then b else s

/-- Conversion of a possibly-undefined string to the text handed to the
DOM (`textContent` renders `undefined` as "undefined"). -/
def jsString (a : Option String) : String :=
  match a with
  | none => "undefined"
  | some s => s

/-- A JavaScript number restricted to what occurs in this file: an integer
or `NaN` (modelled by `none`). -/
abbrev JsNum := Option Int

/-- Rendering of a `JsNum` inside a template literal. -/
def numToString (n : JsNum) : String :=
  match n with
  | none => "NaN"
  | some v => toString v

/-- Subtraction on `JsNum`: `NaN - k = NaN`. -/
def jsSub (n : JsNum) (k : Int) : JsNum := n.map (fun v => v - k)

/-- Addition on `JsNum`: `NaN + k = NaN`. -/
def jsAdd (n : JsNum) (k : Int) : JsNum := n.map (fun v => v + k)

/-- Model of JavaScript `parseInt(s)` (base 10) for the inputs that occur
in this file: `window.location.port` is always `""` (no port) or a string
of decimal digits, so we read the leading run of decimal digits and return
`NaN` (`none`) when there is none, as `parseInt` does on `""`.  (Leading
whitespace and an explicit sign never occur and are elided.) -/
def parseIntJs (s : String) : JsNum :=
  let ds := s.data.takeWhile Char.isDigit
  if ds.isEmpty then none
  else some (ds.foldl (fun n c => 10 * n + ((c.toNat : Int) - 48)) 0)

/-- Model of JavaScript `String.prototype.trim` on the character list
(whitespace stripped from both ends). -/
def jsTrim (s : String) : String :=
  ⟨((s.data.dropWhile Char.isWhitespace).reverse.dropWhile Char.isWhitespace).reverse⟩

/-- Module-level `getBackendUrl()`: derive the backend URL from the page's
port string (`window.location.port`, empty when the URL carries no port).
A non-empty (truthy) port yields `http://localhost:` followed by
`parseInt(port) - 1`; otherwise the fixed fallback `http://localhost:8002`.
Pure: it only computes a string. -/
def getBackendUrl (currentPort : String) : String :=
  if currentPort ≠ "" then
    "http://localhost:" ++ numToString (jsSub (parseIntJs currentPort) 1)
  else
    "http://localhost:8002"

/-- The module-level constant `BACKEND_URL = getBackendUrl()`, fixed at
page load from the page's port string. -/
def BACKEND_URL (pagePort : String) : String := getBackendUrl pagePort

/-- The parsed JSON body of a `/query` response: its `status` string and
the possibly-absent `response` and `error` fields. -/
structure QueryResult where
  status : String
  response : Option String
  error : Option String
deriving DecidableEq, Repr

/-- Outcome of the `fetch` + `response.json()` pair in `sendMessage`:
either the promise chain rejected (network failure or a body that is not
JSON), or a JSON body arrived with some HTTP status code. -/
inductive FetchOutcome where
  | netError (message : String)
  | response (httpStatus : Nat) (result : QueryResult)

/-- Outcome of the initial `/health` probe in `checkBackendStatus`. -/
inductive HealthOutcome where
  | ok
  | notOk
  | netError

/-- Outcome of the `fetch` + `response.json()` pair in `loadFiles`:
the fetch rejected, the body failed to parse as JSON, or a JSON body
arrived whose `files` field is the given list (or absent/falsy, `none`). -/
inductive FilesOutcome where
  | netError (message : String)
  | badBody (message : String)
  | response (files : Option (List FileDesc))

namespace AgentChat

/-- `addMessage(content, type)`: appends one message div to the list. -/
def addMessage (s : SessionState) (content ty : String) : SessionState :=
  { s with messages := s.messages ++ [⟨content, ty⟩] }

/-- `updateStatus(text, className)`. -/
def updateStatus (s : SessionState) (text className : String) : SessionState :=
  { s with statusText := text, statusClassName := "status " ++ className }

/-- The method `getBackendUrl()`: `window.BACKEND_URL || BACKEND_URL`. -/
def getBackendUrl (pagePort : String) (s : SessionState) : String :=
  jsOr s.backendOverride (BACKEND_URL pagePort)

end AgentChat

namespace AgentChat

/-- `sendMessage()`: read and trim the input; a falsy (empty) trimmed
message returns at once.  Otherwise append the user echo, clear the input,
issue one `POST {backendUrl}/query`, and on the outcome append either the
assistant reply (JSON `status` equal to "success"), an
`Error: {result.error || 'Unknown error'}` message (any other JSON
status), or a `Connection error: {error.message}` message plus a status
update (rejected fetch / unparsable body).  The second component lists
the request URLs issued by this call. -/
def sendMessage (pagePort : String) (s : SessionState) (outcome : FetchOutcome) :
    SessionState × List String :=
  let message := jsTrim s.inputValue
  if message = "" then (s, [])
  else
    let s1 := { addMessage s message "user" with inputValue := "" }
    let backendUrl := getBackendUrl pagePort s1
    let s2 :=
      match outcome with
      | .response _ result =>
        if result.status = "success" then
          addMessage s1 (jsString result.response) "assistant"
        else
          addMessage s1 ("Error: " ++ jsOr result.error "Unknown error") "assistant error"
      | .netError err =>
        updateStatus (addMessage s1 ("Connection error: " ++ err) "assistant error")
          "🔴 Connection Error" "error"
    (s2, [backendUrl ++ "/query"])

/-- The URL string built from a port value in a template literal
(`http://localhost:${port}`). -/
def portUrl (p : JsNum) : String := "http://localhost:" ++ numToString p

/-- The `portsToTry` array of `tryAlternativePorts`, built from
`parseInt(window.location.port)`: derived port − 1, derived port + 1, the
fallback 8002, then the common ports 8002–8008 (8002 occurs twice). -/
def portsToTry (currentPort : JsNum) : List JsNum :=
  [jsSub currentPort 1, jsAdd currentPort 1,
   some 8002,
   some 8002, some 8003, some 8004, some 8005, some 8006, some 8007, some 8008]

/-- The `for (const port of portsToTry)` loop body: probe
`{testUrl}/health`; on the first success record `window.BACKEND_URL =
testUrl` and show Connected, otherwise keep trying; after the last failure
show "No Backend Found".  `health testUrl` tells whether the probe of
`testUrl` resolved with `response.ok` (a rejected fetch and a non-ok
response both just continue the loop).  The second component lists the
probe URLs issued. -/
def tryPortsLoop (health : String → Bool) :
    List JsNum → SessionState → SessionState × List String
  | [], s => (updateStatus s "🔴 No Backend Found" "error", [])
  | p :: rest, s =>
    let testUrl := portUrl p
    if health (testUrl ++ "/health") then
      ({ updateStatus s "🟢 Connected" "connected" with backendOverride := some testUrl },
       [testUrl ++ "/health"])
    else
      let next := tryPortsLoop health rest s
      (next.1, (testUrl ++ "/health") :: next.2)

/-- `tryAlternativePorts()`: compute `parseInt(window.location.port)` and
run the probe loop over `portsToTry`. -/
def tryAlternativePorts (pagePort : String) (s : SessionState)
    (health : String → Bool) : SessionState × List String :=
  tryPortsLoop health (portsToTry (parseIntJs pagePort)) s

/-- `checkBackendStatus()`: probe `BACKEND_URL + '/health'` (the
module-level constant).  `response.ok` shows Connected, a non-ok response
shows Backend Error, and a rejected fetch shows Disconnected and then
escalates to `tryAlternativePorts`. -/
def checkBackendStatus (pagePort : String) (s : SessionState)
    (primary : HealthOutcome) (health : String → Bool) : SessionState × List String :=
  match primary with
  | .ok => (updateStatus s "🟢 Connected" "connected", [BACKEND_URL pagePort ++ "/health"])
  | .notOk => (updateStatus s "🔴 Backend Error" "error", [BACKEND_URL pagePort ++ "/health"])
  | .netError =>
    let s1 := updateStatus s "🔴 Disconnected" "error"
    let next := tryAlternativePorts pagePort s1 health
    (next.1, (BACKEND_URL pagePort ++ "/health") :: next.2)

/-- The empty-state indicator `displayFiles` writes when the list is
empty. -/
def noFilesHtml : String := "<p class=\"no-files\">No files generated yet</p>"

/-- One rendered row of the files list, with the download link
`{backendUrl}/files/{filename}`. -/
def fileItemHtml (backendUrl : String) (file : FileDesc) : String :=
  "\n        <div class=\"file-item\">\n            <span class=\"file-name\" title=\"" ++
    file.filename ++ "\">" ++ file.filename ++
    "</span>\n            <a href=\"" ++ backendUrl ++ "/files/" ++ file.filename ++
    "\" \n               class=\"download-btn\" \n               download=\"" ++
    file.filename ++
    "\"\n               target=\"_blank\">\n               ⬇️ Download\n            </a>\n        </div>\n    "

/-- `displayFiles(files)`: the innerHTML written to the files list — the
empty-state paragraph when `files.length === 0`, otherwise the joined row
templates, each linking to `{backendUrl}/files/{filename}` on the current
endpoint. -/
def displayFiles (pagePort : String) (s : SessionState) (files : List FileDesc) : String :=
  if files.length = 0 then
    noFilesHtml
  else
    String.intercalate "" (files.map (fileItemHtml (getBackendUrl pagePort s)))

/-- `loadFiles()`: issue one `GET {backendUrl}/files`; on a parsed JSON
body render `displayFiles(result.files || [])`; a rejected fetch or an
unparsable body is caught (`console.error` only — the caller sees no
exception and the previous rendering stays). -/
def loadFiles (pagePort : String) (s : SessionState) (outcome : FilesOutcome) :
    SessionState × List String :=
  let backendUrl := getBackendUrl pagePort s
  match outcome with
  | .netError _ => (s, [backendUrl ++ "/files"])
  | .badBody _ => (s, [backendUrl ++ "/files"])
  | .response files =>
    ({ s with filesHtml := displayFiles pagePort s (files.getD []) },
     [backendUrl ++ "/files"])

end AgentChat

/-- A user-driven action after page load: submitting the text `input`
(whose network outcome is `outcome`), or a file-list refresh. -/
inductive Event where
  | send (input : String) (outcome : FetchOutcome)
  | load (outcome : FilesOutcome)

/-- One event: typing `input` and submitting runs `sendMessage`; a refresh
runs `loadFiles`. -/
def stepEvent (pagePort : String) (s : SessionState) : Event → SessionState × List String
  | .send input outcome => AgentChat.sendMessage pagePort { s with inputValue := input } outcome
  | .load outcome => AgentChat.loadFiles pagePort s outcome

/-- A session suffix: run the events in order, collecting every request
URL issued. -/
def runEvents (pagePort : String) (s : SessionState) : List Event → SessionState × List String
  | [] => (s, [])
  | e :: es =>
    let step := stepEvent pagePort s e
    let rest := runEvents pagePort step.1 es
    (rest.1, step.2 ++ rest.2)

/-- The base-10 value denoted by a string of decimal digit characters
(most significant first); a page is served on port `P` exactly when its
`location.port` is a digit string denoting `P`. -/
def digitsVal (l : List Char) : Int :=
  l.foldl (fun n c => 10 * n + ((c.toNat : Int) - 48)) 0

/-- A query outcome the spec classifies as failed: a rejected/unparsable
exchange, or a JSON body whose `status` is not "success". -/
def failedOutcome : FetchOutcome → Bool
  | .netError _ => true
  | .response _ result => result.status != "success"

/-- The error detail carried by a failed outcome: the JSON `error` field
(defaulted to "Unknown error") or the exception message. -/
def failureDetail : FetchOutcome → String
  | .netError m => m
  | .response _ result => jsOr result.error "Unknown error"

section Lemmas

/-- On a non-empty all-digit string, `parseIntJs` returns its base-10
value. -/
lemma parseIntJs_digits (s : String) (hne : s.data ≠ [])
    (hdig : s.data.all Char.isDigit = true) :
    parseIntJs s = some (digitsVal s.data) := by
  unfold parseIntJs digitsVal
  have htw : s.data.takeWhile Char.isDigit = s.data := by
    exact List.takeWhile_eq_self_iff.mpr (by simpa [List.all_eq_true] using hdig)
  rw [htw]
  simp [List.isEmpty_iff, hne]

/-- Casting a natural number to `Int` does not change its decimal
rendering. -/
lemma toString_intCast (k : Nat) : toString ((k : Nat) : Int) = toString k := rfl

lemma addMessage_backendOverride (s : SessionState) (c t : String) :
    (AgentChat.addMessage s c t).backendOverride = s.backendOverride := rfl

lemma updateStatus_backendOverride (s : SessionState) (t c : String) :
    (AgentChat.updateStatus s t c).backendOverride = s.backendOverride := rfl

/-- The method `getBackendUrl` reads only the override and the page port. -/
lemma getBackendUrl_congr (pagePort : String) (s1 s2 : SessionState)
    (h : s1.backendOverride = s2.backendOverride) :
    AgentChat.getBackendUrl pagePort s1 = AgentChat.getBackendUrl pagePort s2 := by
  simp [AgentChat.getBackendUrl, h]

end Lemmas

/-- C2.  For every page served on a numeric port `P > 0` (its
`location.port` is a digit string denoting `P`), the module-level
`getBackendUrl` returns the base URL with port `P - 1`; for a page with no
port (`location.port` empty) it returns the fixed fallback
`http://localhost:8002`.  The function is a pure string computation. -/
theorem getBackendUrl_derives_port (s : String) (P : Nat)
    (hne : s.data ≠ []) (hdig : s.data.all Char.isDigit = true)
    (hval : digitsVal s.data = (P : Int)) (hP : 0 < P) :
    getBackendUrl s = "http://localhost:" ++ toString (P - 1)
    ∧ getBackendUrl "" = "http://localhost:8002" := by
  constructor
  · have hs : s ≠ "" := by
      intro hs0
      exact hne (by rw [hs0])
    unfold getBackendUrl
    rw [if_pos hs, parseIntJs_digits s hne hdig, hval]
    have hsub : (P : Int) - 1 = ((P - 1 : Nat) : Int) := by omega
    simp only [jsSub, Option.map_some', numToString, hsub]
    rw [toString_intCast]
  · rfl

/-- Witness for C2 at the concrete port string "8003". -/
theorem getBackendUrl_derives_port_witness :
    getBackendUrl "8003" = "http://localhost:" ++ toString (8003 - 1 : Nat)
    ∧ getBackendUrl "" = "http://localhost:8002" :=
  getBackendUrl_derives_port "8003" 8003 (by decide) (by decide) (by decide) (by decide)

/-- C1.  For every non-empty trimmed input and a backend reply of JSON
status "success" with response `r`, `sendMessage` appends exactly two
messages in order — the user echo with the trimmed input, then the
assistant message with `r` — and issues exactly one network call, to
`{backendUrl}/query`.  The final conjunct factors the run through the
user-echo state (user message appended and input cleared BEFORE the
request is issued; the assistant message is appended to that state only
after the response arrives). -/
theorem sendMessage_success_two_messages (pagePort : String) (s : SessionState)
    (code : Nat) (r : String) (e : Option String)
    (h : jsTrim s.inputValue ≠ "") :
    (AgentChat.sendMessage pagePort s (.response code ⟨"success", some r, e⟩)).1.messages
      = s.messages ++ [⟨jsTrim s.inputValue, "user"⟩, ⟨r, "assistant"⟩]
    ∧ (AgentChat.sendMessage pagePort s (.response code ⟨"success", some r, e⟩)).2
      = [AgentChat.getBackendUrl pagePort s ++ "/query"]
    ∧ (AgentChat.sendMessage pagePort s (.response code ⟨"success", some r, e⟩)).1
      = AgentChat.addMessage
          { AgentChat.addMessage s (jsTrim s.inputValue) "user" with inputValue := "" }
          r "assistant" := by
  refine ⟨?_, ?_, ?_⟩ <;>
    simp [AgentChat.sendMessage, AgentChat.addMessage, AgentChat.getBackendUrl,
      jsString, h]

/-- Witness for C1: input "hello", reply status "success" with response
"hi". -/
theorem sendMessage_success_two_messages_witness :
    (AgentChat.sendMessage "8003" { initState with inputValue := "hello" }
        (.response 200 ⟨"success", some "hi", none⟩)).1.messages
      = ({ initState with inputValue := "hello" } : SessionState).messages
          ++ [⟨jsTrim "hello", "user"⟩, ⟨"hi", "assistant"⟩]
    ∧ (AgentChat.sendMessage "8003" { initState with inputValue := "hello" }
        (.response 200 ⟨"success", some "hi", none⟩)).2
      = [AgentChat.getBackendUrl "8003" { initState with inputValue := "hello" } ++ "/query"]
    ∧ (AgentChat.sendMessage "8003" { initState with inputValue := "hello" }
        (.response 200 ⟨"success", some "hi", none⟩)).1
      = AgentChat.addMessage
          { AgentChat.addMessage { initState with inputValue := "hello" }
              (jsTrim "hello") "user" with inputValue := "" }
          "hi" "assistant" :=
  sendMessage_success_two_messages "8003" { initState with inputValue := "hello" }
    200 "hi" none (by decide)

/-- C8.  For every input whose trimmed value is empty, `sendMessage`
returns at once: no request is issued, no message is appended, and the
state is unchanged. -/
theorem sendMessage_empty_noop (pagePort : String) (s : SessionState)
    (outcome : FetchOutcome) (h : jsTrim s.inputValue = "") :
    AgentChat.sendMessage pagePort s outcome = (s, []) := by
  simp [AgentChat.sendMessage, h]

/-- Witness for C8: whitespace-only input "   " with a would-be successful
reply. -/
theorem sendMessage_empty_noop_witness :
    AgentChat.sendMessage "8003" { initState with inputValue := "   " }
        (.response 200 ⟨"success", some "hi", none⟩)
      = ({ initState with inputValue := "   " }, []) :=
  sendMessage_empty_noop "8003" { initState with inputValue := "   " }
    (.response 200 ⟨"success", some "hi", none⟩) (by decide)

/-- C9.  `sendMessage` classifies a parsed `/query` reply solely by its
JSON `status` field and never by the HTTP status code: the run is
identical for every HTTP code, a non-200 response whose body has status
"success" is rendered as a normal assistant message, and a 200 response
with any other status is rendered as an error-tagged message. -/
theorem sendMessage_ignores_http_code (pagePort : String) (s : SessionState)
    (code : Nat) (result : QueryResult) (h : jsTrim s.inputValue ≠ "") :
    AgentChat.sendMessage pagePort s (.response code result)
      = AgentChat.sendMessage pagePort s (.response 200 result)
    ∧ (result.status = "success" →
        (AgentChat.sendMessage pagePort s (.response code result)).1.messages
          = s.messages ++ [⟨jsTrim s.inputValue, "user"⟩,
              ⟨jsString result.response, "assistant"⟩])
    ∧ (result.status ≠ "success" →
        (AgentChat.sendMessage pagePort s (.response 200 result)).1.messages
          = s.messages ++ [⟨jsTrim s.inputValue, "user"⟩,
              ⟨"Error: " ++ jsOr result.error "Unknown error", "assistant error"⟩]) := by
  refine ⟨rfl, fun hs => ?_, fun hs => ?_⟩ <;>
    simp [AgentChat.sendMessage, AgentChat.addMessage, h, hs]

/-- Witness for C9: an HTTP 500 reply whose body has status "success" is
rendered as a normal assistant message, and an HTTP 200 reply with status
"error" as an error message. -/
theorem sendMessage_ignores_http_code_witness :
    AgentChat.sendMessage "8003" { initState with inputValue := "hello" }
        (.response 500 ⟨"success", some "hi", none⟩)
      = AgentChat.sendMessage "8003" { initState with inputValue := "hello" }
        (.response 200 ⟨"success", some "hi", none⟩)
    ∧ (("success" : String) = "success" →
        (AgentChat.sendMessage "8003" { initState with inputValue := "hello" }
          (.response 500 ⟨"success", some "hi", none⟩)).1.messages
          = ({ initState with inputValue := "hello" } : SessionState).messages
              ++ [⟨jsTrim "hello", "user"⟩, ⟨jsString (some "hi"), "assistant"⟩])
    ∧ (("success" : String) ≠ "success" →
        (AgentChat.sendMessage "8003" { initState with inputValue := "hello" }
          (.response 200 ⟨"success", some "hi", none⟩)).1.messages
          = ({ initState with inputValue := "hello" } : SessionState).messages
              ++ [⟨jsTrim "hello", "user"⟩,
                  ⟨"Error: " ++ jsOr none "Unknown error", "assistant error"⟩]) :=
  sendMessage_ignores_http_code "8003" { initState with inputValue := "hello" }
    500 ⟨"success", some "hi", none⟩ (by decide)

/-- C6.  For every `sendMessage` call whose reply has a JSON status other
than "success" or that fails with a network/parse error, exactly one
error-tagged message is appended (after the user echo), its text carries
the error detail (the JSON `error` field defaulted to "Unknown error", or
the exception message) as a suffix, and exactly one request is issued (no
automatic retry). -/
theorem sendMessage_failure_one_error (pagePort : String) (s : SessionState)
    (outcome : FetchOutcome) (h : jsTrim s.inputValue ≠ "")
    (hfail : failedOutcome outcome = true) :
    ∃ content,
      (AgentChat.sendMessage pagePort s outcome).1.messages
        = s.messages ++ [⟨jsTrim s.inputValue, "user"⟩, ⟨content, "assistant error"⟩]
      ∧ (∃ p, content = p ++ failureDetail outcome)
      ∧ (AgentChat.sendMessage pagePort s outcome).2
        = [AgentChat.getBackendUrl pagePort s ++ "/query"] := by
  cases outcome with
  | netError m =>
    refine ⟨"Connection error: " ++ m, ?_, ⟨"Connection error: ", rfl⟩, ?_⟩ <;>
      simp [AgentChat.sendMessage, AgentChat.addMessage, AgentChat.updateStatus,
        AgentChat.getBackendUrl, failureDetail, h]
  | response code result =>
    have hs : result.status ≠ "success" := by
      simpa [failedOutcome] using hfail
    refine ⟨"Error: " ++ jsOr result.error "Unknown error", ?_, ⟨"Error: ", rfl⟩, ?_⟩ <;>
      simp [AgentChat.sendMessage, AgentChat.addMessage, AgentChat.getBackendUrl,
        failureDetail, h, hs]

/-- Witness for C6: input "hello" with reply `{status:"error",
error:"boom"}`; the appended message is error-tagged and ends in "boom". -/
theorem sendMessage_failure_one_error_witness :
    ∃ content,
      (AgentChat.sendMessage "8003" { initState with inputValue := "hello" }
          (.response 200 ⟨"error", none, some "boom"⟩)).1.messages
        = ({ initState with inputValue := "hello" } : SessionState).messages
            ++ [⟨jsTrim "hello", "user"⟩, ⟨content, "assistant error"⟩]
      ∧ (∃ p, content = p ++ failureDetail (.response 200 ⟨"error", none, some "boom"⟩))
      ∧ (AgentChat.sendMessage "8003" { initState with inputValue := "hello" }
          (.response 200 ⟨"error", none, some "boom"⟩)).2
        = [AgentChat.getBackendUrl "8003" { initState with inputValue := "hello" }
            ++ "/query"] :=
  sendMessage_failure_one_error "8003" { initState with inputValue := "hello" }
    (.response 200 ⟨"error", none, some "boom"⟩) (by decide) (by decide)

/-- C7 (amended).  A parsed `/files` reply whose `files` field is absent
or falsy degrades to the empty list, and — as with `{files:[]}` — the
empty-state indicator is rendered; a rejected fetch or an unparsable
(e.g. empty) body is caught inside `loadFiles` (nothing is visible to the
caller beyond a console log), but then the previously rendered list is
left unchanged rather than degraded to empty. -/
theorem loadFiles_degrades (pagePort : String) (s : SessionState) (m mb : String) :
    (AgentChat.loadFiles pagePort s (.response none)).1.filesHtml = AgentChat.noFilesHtml
    ∧ (AgentChat.loadFiles pagePort s (.response (some []))).1.filesHtml
        = AgentChat.noFilesHtml
    ∧ AgentChat.loadFiles pagePort s (.badBody mb)
        = (s, [AgentChat.getBackendUrl pagePort s ++ "/files"])
    ∧ AgentChat.loadFiles pagePort s (.netError m)
        = (s, [AgentChat.getBackendUrl pagePort s ++ "/files"]) := by
  refine ⟨?_, ?_, rfl, rfl⟩ <;> simp [AgentChat.loadFiles, AgentChat.displayFiles]

/-- C7 (counterexample to the claim as stated).  An empty or unparsable
`/files` body does NOT degrade the rendering to an empty file list: after
one file has been listed, a reply whose body fails to parse leaves the
previous row rendered (the claim's "degrades to an empty file list" fails
there; only the absence of a visible exception holds). -/
theorem loadFiles_malformed_keeps_previous :
    (AgentChat.loadFiles "8003"
        (AgentChat.loadFiles "8003" initState (.response (some [⟨"a.txt"⟩]))).1
        (.badBody "Unexpected end of JSON input")).1.filesHtml
      ≠ AgentChat.noFilesHtml := by decide

section ProbeLoop

/-- When some candidate passes the health check, the probe loop probes
exactly the failing candidates before the first passing one, stops there,
and records that candidate's URL as the endpoint override. -/
lemma tryPortsLoop_find_some (health : String → Bool) :
    ∀ (l : List JsNum) (s : SessionState) (p : JsNum),
      l.find? (fun q => health (AgentChat.portUrl q ++ "/health")) = some p →
      AgentChat.tryPortsLoop health l s
        = ({ AgentChat.updateStatus s "🟢 Connected" "connected" with
              backendOverride := some (AgentChat.portUrl p) },
           (l.takeWhile (fun q => !(health (AgentChat.portUrl q ++ "/health")))).map
              (fun q => AgentChat.portUrl q ++ "/health")
             ++ [AgentChat.portUrl p ++ "/health"]) := by
  intro l
  induction l with
  | nil => intro s p h; simp at h
  | cons q rest ih =>
    intro s p h
    by_cases hq : health (AgentChat.portUrl q ++ "/health") = true
    · simp only [List.find?, hq, Option.some.injEq] at h
      subst h
      simp [AgentChat.tryPortsLoop, hq]
    · have hq' : health (AgentChat.portUrl q ++ "/health") = false := by
        simpa using hq
      simp only [List.find?, hq'] at h
      simp [AgentChat.tryPortsLoop, hq', ih s p h]

/-- When every candidate fails the health check, the probe loop probes
them all, changes only the status indicator, and leaves the rest of the
state (in particular the endpoint override) untouched. -/
lemma tryPortsLoop_all_fail (health : String → Bool) :
    ∀ (l : List JsNum) (s : SessionState),
      (∀ q ∈ l, health (AgentChat.portUrl q ++ "/health") = false) →
      AgentChat.tryPortsLoop health l s
        = (AgentChat.updateStatus s "🔴 No Backend Found" "error",
           l.map (fun q => AgentChat.portUrl q ++ "/health")) := by
  intro l
  induction l with
  | nil => intro s _; rfl
  | cons q rest ih =>
    intro s h
    have hq : health (AgentChat.portUrl q ++ "/health") = false := h q (by simp)
    have hrest : ∀ q' ∈ rest, health (AgentChat.portUrl q' ++ "/health") = false :=
      fun q' hq' => h q' (by simp [hq'])
    simp [AgentChat.tryPortsLoop, hq, ih s hrest]

end ProbeLoop

/-- C3.  When the primary candidate's health check has failed,
`tryAlternativePorts` probes the fixed ordered candidate list — derived
port − 1, derived port + 1, then the fixed common-port list in which 8002
appears twice — sequentially: it probes exactly the candidates before the
first one whose health check succeeds, stops there, and sets the shared
endpoint override to that candidate's URL (and shows Connected). -/
theorem tryAlternativePorts_first_success (pagePort : String) (s : SessionState)
    (health : String → Bool) (p : JsNum)
    (hfind : (AgentChat.portsToTry (parseIntJs pagePort)).find?
        (fun q => health (AgentChat.portUrl q ++ "/health")) = some p) :
    AgentChat.portsToTry (parseIntJs pagePort)
      = [jsSub (parseIntJs pagePort) 1, jsAdd (parseIntJs pagePort) 1,
         some 8002,
         some 8002, some 8003, some 8004, some 8005, some 8006, some 8007, some 8008]
    ∧ (AgentChat.tryAlternativePorts pagePort s health).1
      = { AgentChat.updateStatus s "🟢 Connected" "connected" with
            backendOverride := some (AgentChat.portUrl p) }
    ∧ (AgentChat.tryAlternativePorts pagePort s health).2
      = ((AgentChat.portsToTry (parseIntJs pagePort)).takeWhile
            (fun q => !(health (AgentChat.portUrl q ++ "/health")))).map
            (fun q => AgentChat.portUrl q ++ "/health")
          ++ [AgentChat.portUrl p ++ "/health"] := by
  refine ⟨rfl, ?_, ?_⟩ <;>
    rw [AgentChat.tryAlternativePorts,
      tryPortsLoop_find_some health (AgentChat.portsToTry (parseIntJs pagePort)) s p hfind]

/-- Witness for C3: page port "8003"; only port 8004 answers, so the
probes are 8002 then 8004 and the override becomes
`http://localhost:8004`. -/
theorem tryAlternativePorts_first_success_witness :
    AgentChat.portsToTry (parseIntJs "8003")
      = [jsSub (parseIntJs "8003") 1, jsAdd (parseIntJs "8003") 1,
         some 8002,
         some 8002, some 8003, some 8004, some 8005, some 8006, some 8007, some 8008]
    ∧ (AgentChat.tryAlternativePorts "8003" initState
          (fun u => u = "http://localhost:8004/health")).1
      = { AgentChat.updateStatus initState "🟢 Connected" "connected" with
            backendOverride := some (AgentChat.portUrl (some 8004)) }
    ∧ (AgentChat.tryAlternativePorts "8003" initState
          (fun u => u = "http://localhost:8004/health")).2
      = ((AgentChat.portsToTry (parseIntJs "8003")).takeWhile
            (fun q => !((fun u => decide (u = "http://localhost:8004/health"))
                (AgentChat.portUrl q ++ "/health")))).map
            (fun q => AgentChat.portUrl q ++ "/health")
          ++ [AgentChat.portUrl (some 8004) ++ "/health"] :=
  tryAlternativePorts_first_success "8003" initState
    (fun u => u = "http://localhost:8004/health") (some 8004) (by decide)

/-- C4.  If every fallback candidate's health check fails,
`tryAlternativePorts` shows the "No Backend Found" status and leaves the
prior endpoint state unchanged: the override field keeps its previous
value, so if it was unset it remains unset. -/
theorem tryAlternativePorts_all_fail (pagePort : String) (s : SessionState)
    (health : String → Bool)
    (hall : ∀ q ∈ AgentChat.portsToTry (parseIntJs pagePort),
        health (AgentChat.portUrl q ++ "/health") = false) :
    (AgentChat.tryAlternativePorts pagePort s health).1
      = AgentChat.updateStatus s "🔴 No Backend Found" "error"
    ∧ (AgentChat.tryAlternativePorts pagePort s health).1.backendOverride
      = s.backendOverride
    ∧ (AgentChat.tryAlternativePorts pagePort s health).1.statusText
      = "🔴 No Backend Found" := by
  have h := tryPortsLoop_all_fail health (AgentChat.portsToTry (parseIntJs pagePort)) s hall
  rw [AgentChat.tryAlternativePorts, h]
  exact ⟨rfl, rfl, rfl⟩

/-- Witness for C4: page port "8003" and a backend that answers nowhere. -/
theorem tryAlternativePorts_all_fail_witness :
    (AgentChat.tryAlternativePorts "8003" initState (fun _ => false)).1
      = AgentChat.updateStatus initState "🔴 No Backend Found" "error"
    ∧ (AgentChat.tryAlternativePorts "8003" initState (fun _ => false)).1.backendOverride
      = initState.backendOverride
    ∧ (AgentChat.tryAlternativePorts "8003" initState (fun _ => false)).1.statusText
      = "🔴 No Backend Found" :=
  tryAlternativePorts_all_fail "8003" initState (fun _ => false) (by decide)

/-- C10.  On a page with no port, `parseInt('')` is `NaN`, so the first
two fallback candidates of `tryAlternativePorts` are `NaN` and every probe
built from them is `http://localhost:NaN/health`.  Since such a URL can
never answer the health check (hypothesis `h`), discovery reduces to the
probe loop over the fixed common-port list 8002–8008 alone. -/
theorem tryAlternativePorts_no_port_nan (s : SessionState) (health : String → Bool)
    (h : health "http://localhost:NaN/health" = false) :
    AgentChat.portsToTry (parseIntJs "")
      = [none, none,
         some 8002,
         some 8002, some 8003, some 8004, some 8005, some 8006, some 8007, some 8008]
    ∧ AgentChat.portUrl none = "http://localhost:NaN"
    ∧ AgentChat.tryAlternativePorts "" s health
      = (let rest := AgentChat.tryPortsLoop health
            [some 8002,
             some 8002, some 8003, some 8004, some 8005, some 8006, some 8007, some 8008] s
         (rest.1, "http://localhost:NaN/health" :: "http://localhost:NaN/health" :: rest.2)) := by
  have hnan : AgentChat.portUrl none ++ "/health" = "http://localhost:NaN/health" := rfl
  refine ⟨rfl, rfl, ?_⟩
  rw [AgentChat.tryAlternativePorts,
    show AgentChat.portsToTry (parseIntJs "")
      = none :: none ::
        [some 8002,
         some 8002, some 8003, some 8004, some 8005, some 8006, some 8007, some 8008]
      from rfl]
  rw [AgentChat.tryPortsLoop, hnan, h]
  rw [AgentChat.tryPortsLoop, hnan, h]
  simp

/-- Witness for C10: a backend living only on port 8005 is found through
the common-port list even though the first two probes are
`http://localhost:NaN/health`. -/
theorem tryAlternativePorts_no_port_nan_witness :
    AgentChat.portsToTry (parseIntJs "")
      = [none, none,
         some 8002,
         some 8002, some 8003, some 8004, some 8005, some 8006, some 8007, some 8008]
    ∧ AgentChat.portUrl none = "http://localhost:NaN"
    ∧ AgentChat.tryAlternativePorts "" initState
        (fun u => u = "http://localhost:8005/health")
      = (let rest := AgentChat.tryPortsLoop (fun u => u = "http://localhost:8005/health")
            [some 8002,
             some 8002, some 8003, some 8004, some 8005, some 8006, some 8007, some 8008]
            initState
         (rest.1, "http://localhost:NaN/health" :: "http://localhost:NaN/health" :: rest.2)) :=
  tryAlternativePorts_no_port_nan initState
    (fun u => u = "http://localhost:8005/health") (by decide)

section SessionInvariant

/-- `sendMessage` never touches the endpoint override, and its only
request targets the current endpoint's `/query` route. -/
lemma sendMessage_endpoint (pagePort : String) (s : SessionState)
    (outcome : FetchOutcome) :
    (AgentChat.sendMessage pagePort s outcome).1.backendOverride = s.backendOverride
    ∧ ∀ r ∈ (AgentChat.sendMessage pagePort s outcome).2,
        r = AgentChat.getBackendUrl pagePort s ++ "/query" := by
  by_cases h : jsTrim s.inputValue = ""
  · simp [AgentChat.sendMessage, h]
  · cases outcome with
    | netError m =>
      refine ⟨?_, ?_⟩ <;>
        simp [AgentChat.sendMessage, AgentChat.addMessage, AgentChat.updateStatus,
          AgentChat.getBackendUrl, h]
    | response code result =>
      by_cases hs : result.status = "success" <;>
        refine ⟨?_, ?_⟩ <;>
          simp [AgentChat.sendMessage, AgentChat.addMessage, AgentChat.getBackendUrl, h, hs]

/-- `loadFiles` never touches the endpoint override, and its only request
targets the current endpoint's `/files` route. -/
lemma loadFiles_endpoint (pagePort : String) (s : SessionState)
    (outcome : FilesOutcome) :
    (AgentChat.loadFiles pagePort s outcome).1.backendOverride = s.backendOverride
    ∧ ∀ r ∈ (AgentChat.loadFiles pagePort s outcome).2,
        r = AgentChat.getBackendUrl pagePort s ++ "/files" := by
  cases outcome <;> simp [AgentChat.loadFiles]

/-- One post-load event keeps the endpoint override, and each of its
requests targets the current endpoint's `/query` or `/files` route. -/
lemma stepEvent_endpoint (pagePort : String) (s : SessionState) (e : Event) :
    (stepEvent pagePort s e).1.backendOverride = s.backendOverride
    ∧ ∀ r ∈ (stepEvent pagePort s e).2,
        r = AgentChat.getBackendUrl pagePort s ++ "/query"
        ∨ r = AgentChat.getBackendUrl pagePort s ++ "/files" := by
  cases e with
  | send input outcome =>
    have h := sendMessage_endpoint pagePort { s with inputValue := input } outcome
    have hurl : AgentChat.getBackendUrl pagePort { s with inputValue := input }
        = AgentChat.getBackendUrl pagePort s := getBackendUrl_congr pagePort _ _ rfl
    exact ⟨h.1, fun r hr => Or.inl (hurl ▸ h.2 r hr)⟩
  | load outcome =>
    have h := loadFiles_endpoint pagePort s outcome
    exact ⟨h.1, fun r hr => Or.inr (h.2 r hr)⟩

end SessionInvariant

/-- C5 (amended).  Across the whole remainder of the session, every
`sendMessage` and `loadFiles` call — and hence every download link, which
is built from the same `getBackendUrl()` value — uses the endpoint value
in force at the start of the suffix: every request issued is that
endpoint's `/query` or `/files` route, the override never changes, and
the endpoint value is the same at the end.  In particular no `/health`
probe, i.e. no rediscovery, is ever issued by these calls, whether or not
any of them fails. -/
theorem endpoint_reused_for_session (pagePort : String) (s : SessionState)
    (events : List Event) :
    (runEvents pagePort s events).1.backendOverride = s.backendOverride
    ∧ AgentChat.getBackendUrl pagePort (runEvents pagePort s events).1
      = AgentChat.getBackendUrl pagePort s
    ∧ ∀ r ∈ (runEvents pagePort s events).2,
        r = AgentChat.getBackendUrl pagePort s ++ "/query"
        ∨ r = AgentChat.getBackendUrl pagePort s ++ "/files" := by
  induction events generalizing s with
  | nil => exact ⟨rfl, rfl, by simp [runEvents]⟩
  | cons e es ih =>
    have hstep := stepEvent_endpoint pagePort s e
    have hurl : AgentChat.getBackendUrl pagePort (stepEvent pagePort s e).1
        = AgentChat.getBackendUrl pagePort s :=
      getBackendUrl_congr pagePort _ _ hstep.1
    have hrest := ih (stepEvent pagePort s e).1
    refine ⟨?_, ?_, ?_⟩
    · rw [show (runEvents pagePort s (e :: es)).1
          = (runEvents pagePort (stepEvent pagePort s e).1 es).1 from rfl,
        hrest.1, hstep.1]
    · rw [show (runEvents pagePort s (e :: es)).1
          = (runEvents pagePort (stepEvent pagePort s e).1 es).1 from rfl,
        hrest.2.1, hurl]
    · intro r hr
      rw [show (runEvents pagePort s (e :: es)).2
          = (stepEvent pagePort s e).2 ++ (runEvents pagePort (stepEvent pagePort s e).1 es).2
          from rfl] at hr
      rcases List.mem_append.mp hr with hr1 | hr2
      · exact hstep.2 r hr1
      · rcases hrest.2.2 r hr2 with h1 | h2
        · exact Or.inl (by rw [← hurl]; exact h1)
        · exact Or.inr (by rw [← hurl]; exact h2)

/-- Witness for C5 (amended), on a concrete two-event session suffix. -/
theorem endpoint_reused_for_session_witness :
    (runEvents "8003" initState
        [.send "hello" (.netError "Failed to fetch"), .load (.response (some []))]).1.backendOverride
      = initState.backendOverride
    ∧ AgentChat.getBackendUrl "8003"
        (runEvents "8003" initState
          [.send "hello" (.netError "Failed to fetch"), .load (.response (some []))]).1
      = AgentChat.getBackendUrl "8003" initState
    ∧ ∀ r ∈ (runEvents "8003" initState
          [.send "hello" (.netError "Failed to fetch"), .load (.response (some []))]).2,
        r = AgentChat.getBackendUrl "8003" initState ++ "/query"
        ∨ r = AgentChat.getBackendUrl "8003" initState ++ "/files" :=
  endpoint_reused_for_session "8003" initState
    [.send "hello" (.netError "Failed to fetch"), .load (.response (some []))]

/-- C5 (counterexample to the claim as stated).  After the endpoint has
been validated (the page-load health check succeeded), a failing
`sendMessage` does NOT attempt rediscovery: the whole action issues only
the one `/query` request (no `/health` probe follows the failure), the
endpoint override is left untouched, and only an error message and the
status indicator record the failure. -/
theorem failed_call_no_rediscovery :
    (stepEvent "8003" (AgentChat.checkBackendStatus "8003" initState .ok (fun _ => false)).1
        (.send "hello" (.netError "Failed to fetch"))).2
      = ["http://localhost:8002/query"]
    ∧ (stepEvent "8003" (AgentChat.checkBackendStatus "8003" initState .ok (fun _ => false)).1
        (.send "hello" (.netError "Failed to fetch"))).1.backendOverride
      = (AgentChat.checkBackendStatus "8003" initState .ok (fun _ => false)).1.backendOverride
    ∧ (stepEvent "8003" (AgentChat.checkBackendStatus "8003" initState .ok (fun _ => false)).1
        (.send "hello" (.netError "Failed to fetch"))).1.statusText
      = "🔴 Connection Error" := by
  refine ⟨?_, ?_, ?_⟩ <;> decide
